import Mathlib

/-!
Shallow embedding of the to-do mobile client (list screen, add/edit screen)
and of the TodoStore backend contract it talks to.

Client-side definitions are translated from the source of
`src/screens/AddEditScreen.tsx` and `src/screens/HomeScreen.tsx`
(`handleSave`, `handleToggleCompletion`, `fetchTodos`, `SearchBar`).
The backend store itself is not part of the repository; where a claim
needs it, the store operations are modelled from the spec and say so in
their doc comments.
-/

/-- JavaScript `String.prototype.trim()`: remove leading and trailing
whitespace. Embedded over Lean strings via `dropWhile` on the character
list from the left and `rdropWhile` from the right. -/
def jsTrim (s : String) : String :=
  String.mk (List.rdropWhile Char.isWhitespace
    (List.dropWhile Char.isWhitespace s.data))

/-- The TodoItem record, from the `TodoItem` interface of the client
source (`description` and `dueDate` are `string | null`). -/
structure TodoItem where
  id : String
  title : String
  description : Option String
  dueDate : Option String
  isImportant : Bool
  isCompleted : Bool
  createdAt : String
deriving Repr, DecidableEq

/-- JSON values appearing in request bodies: this client only ever sends
strings, booleans and null inside a flat object. -/
inductive JValue where
  | jnull : JValue
  | jbool : Bool → JValue
  | jstr : String → JValue
deriving Repr, DecidableEq

/-- Look a key up in a flat JSON object, represented as a key/value list. -/
def jLookup (k : String) (body : List (String × JValue)) : Option JValue :=
  (body.find? (fun kv => kv.1 == k)).map (fun kv => kv.2)

/-- The add/edit form state: `title` and `description` are text-input
strings, `dueDate` is the picked date (already serialised by
`toISOString`), `isImportant` the switch value. -/
structure SaveForm where
  title : String
  description : String
  dueDate : Option String
  isImportant : Bool
deriving Repr, DecidableEq

/-- The body `handleSave` serialises: `title: title.trim()`,
`description: description.trim() || null`,
`dueDate: dueDate ? dueDate.toISOString() : null`, `isImportant`. -/
def saveBody (f : SaveForm) : List (String × JValue) :=
  [("title", JValue.jstr (jsTrim f.title)),
   ("description",
     if jsTrim f.description = "" then JValue.jnull
     else JValue.jstr (jsTrim f.description)),
   ("dueDate",
     match f.dueDate with
     | some d => JValue.jstr d
     | none => JValue.jnull),
   ("isImportant", JValue.jbool f.isImportant)]

/-- What `handleSave` does before any network activity: an empty-trim
title is blocked by the guard (`if (!title.trim())`), otherwise a PUT
(editing) or POST (creating) request with `saveBody` is issued. -/
inductive SaveAction where
  | blocked : SaveAction
  | send : String → List (String × JValue) → SaveAction
deriving Repr, DecidableEq

/-- The request decision of `handleSave`. -/
def handleSave (isEditing : Bool) (f : SaveForm) : SaveAction :=
  if jsTrim f.title = "" then SaveAction.blocked
  else SaveAction.send (if isEditing then "PUT" else "POST") (saveBody f)

/-- `response.ok`: HTTP status in [200, 300). -/
def respOk (status : Nat) : Bool := 200 ≤ status && status < 300

/-- Observable outcome of one run of `handleSave`: whether a request was
sent, the alert shown, whether the screen navigated back, and the final
`isSaving` flag (reset in the `finally` block). `status = none` is a
transport error (the `fetch` itself threw). -/
structure SaveRun where
  requestSent : Bool
  alert : String × String
  navigatedBack : Bool
  isSavingAfter : Bool
deriving Repr, DecidableEq

/-- One run of `handleSave`, following the source: the empty-title guard
alerts and returns; a 2xx response alerts success and navigates back; any
other response or a thrown fetch lands in the catch block with one
generic error alert; `finally` resets `isSaving`. -/
def handleSaveRun (isEditing : Bool) (f : SaveForm) (status : Option Nat) : SaveRun :=
  if jsTrim f.title = "" then
    { requestSent := false,
      alert := ("Uyarı", "Görev başlığı boş bırakılamaz."),
      navigatedBack := false, isSavingAfter := false }
  else
    match status with
    | some s =>
      if respOk s then
        { requestSent := true,
          alert := ("Başarılı",
            if isEditing then "Görev başarıyla güncellendi." else "Yeni görev eklendi."),
          navigatedBack := true, isSavingAfter := false }
      else
        { requestSent := true,
          alert := ("Hata", "Kaydetme işlemi sırasında bir hata oluştu."),
          navigatedBack := false, isSavingAfter := false }
    | none =>
      { requestSent := true,
        alert := ("Hata", "Kaydetme işlemi sırasında bir hata oluştu."),
        navigatedBack := false, isSavingAfter := false }

/-- Errors of the TodoStore backend contract. -/
inductive StoreError where
  | validationError : StoreError
  | notFound : StoreError
deriving Repr, DecidableEq

/-- Modelled from the spec: the backend TodoStore, absent from the
repository (only the client that calls it is in src/). It owns the
authoritative collection of TodoItem records. -/
structure TodoStore where
  items : List TodoItem
deriving Repr, DecidableEq

/-- A partial-update request body as the backend reads it: each field is
either absent or provided; a provided `description`/`dueDate` can itself
be null (`none`) or a string. -/
structure UpdatePayload where
  title : Option String
  description : Option (Option String)
  dueDate : Option (Option String)
  isImportant : Option Bool
  isCompleted : Option Bool
deriving Repr, DecidableEq

/-- Read a nullable string field out of a JSON lookup result: absent key
stays absent; null and string values are provided. -/
def jOptStr : Option JValue → Option (Option String)
  | some JValue.jnull => some none
  | some (JValue.jstr s) => some (some s)
  | _ => none

/-- Decode a flat JSON body into the partial-update payload the backend
sees: a field is provided exactly when its key is present with a value of
the right shape. -/
def bodyToPayload (body : List (String × JValue)) : UpdatePayload :=
  { title :=
      match jLookup "title" body with
      | some (JValue.jstr t) => some t
      | _ => none,
    description := jOptStr (jLookup "description" body),
    dueDate := jOptStr (jLookup "dueDate" body),
    isImportant :=
      match jLookup "isImportant" body with
      | some (JValue.jbool b) => some b
      | _ => none,
    isCompleted :=
      match jLookup "isCompleted" body with
      | some (JValue.jbool b) => some b
      | _ => none }

/-- Modelled from the spec: Update applies only the provided fields of
the payload to an item; a provided title is trimmed before storage. -/
def applyUpdate (p : UpdatePayload) (t : TodoItem) : TodoItem :=
  { t with
    title :=
      match p.title with
      | some ti => jsTrim ti
      | none => t.title,
    description := p.description.getD t.description,
    dueDate := p.dueDate.getD t.dueDate,
    isImportant := p.isImportant.getD t.isImportant,
    isCompleted := p.isCompleted.getD t.isCompleted }

/-- Modelled from the spec: Create — fails with ValidationError when the
title trims to empty, otherwise assigns `id` and `createdAt`, stores the
trimmed title, and defaults `isImportant` to false and `isCompleted` to
false. Returns the result together with the (possibly unchanged) store. -/
def createTodo (s : TodoStore) (newId now : String) (body : List (String × JValue)) :
    Except StoreError TodoItem × TodoStore :=
  let title :=
    match jLookup "title" body with
    | some (JValue.jstr t) => t
    | _ => ""
  if jsTrim title = "" then (Except.error StoreError.validationError, s)
  else
    let item : TodoItem :=
      { id := newId,
        title := jsTrim title,
        description := (jOptStr (jLookup "description" body)).getD none,
        dueDate := (jOptStr (jLookup "dueDate" body)).getD none,
        isImportant :=
          ((match jLookup "isImportant" body with
            | some (JValue.jbool b) => some b
            | _ => none) : Option Bool).getD false,
        isCompleted := false,
        createdAt := now }
    (Except.ok item, ⟨s.items ++ [item]⟩)

/-- Modelled from the spec: Get — fails with NotFound when no item has
the id. -/
def getTodo (s : TodoStore) (id : String) : Except StoreError TodoItem :=
  match s.items.find? (fun t => t.id == id) with
  | some t => Except.ok t
  | none => Except.error StoreError.notFound

/-- Modelled from the spec: Update — NotFound when the id is absent,
ValidationError when an explicitly provided title trims to empty,
otherwise applies exactly the provided fields to the item with that id.
Returns the result together with the (possibly unchanged) store. -/
def updateTodo (s : TodoStore) (id : String) (p : UpdatePayload) :
    Except StoreError TodoItem × TodoStore :=
  match s.items.find? (fun t => t.id == id) with
  | none => (Except.error StoreError.notFound, s)
  | some t =>
    match p.title with
    | some ti =>
      if jsTrim ti = "" then (Except.error StoreError.validationError, s)
      else
        (Except.ok (applyUpdate p t),
         ⟨s.items.map (fun x => if x.id == id then applyUpdate p x else x)⟩)
    | none =>
      (Except.ok (applyUpdate p t),
       ⟨s.items.map (fun x => if x.id == id then applyUpdate p x else x)⟩)

/-- A save from the add/edit screen run against the store: the client
guard of `handleSave` first (no request when the title trims to empty),
then the PUT body goes to Update for an existing id, the POST body to
Create. `none` in the first component means no request was issued. -/
def performSave (editing : Option String) (f : SaveForm) (s : TodoStore)
    (newId now : String) : Option (Except StoreError TodoItem) × TodoStore :=
  match handleSave editing.isSome f with
  | SaveAction.blocked => (none, s)
  | SaveAction.send _ body =>
    match editing with
    | some id =>
      let r := updateTodo s id (bodyToPayload body)
      (some r.1, r.2)
    | none =>
      let r := createTodo s newId now body
      (some r.1, r.2)

/-- Outcome of one network call as the client sees it. -/
inductive NetOutcome where
  | ok : NetOutcome
  | httpError : NetOutcome
  | transportError : NetOutcome
deriving Repr, DecidableEq

/-- Trace of one run of `handleToggleCompletion` on the list screen:
the PUT body it sends, the locally held list while the request is in
flight, and the list after the response, as a function of the network
outcome. -/
structure ToggleRun where
  requestBody : List (String × JValue)
  listDuring : List TodoItem
  listAfter : NetOutcome → List TodoItem

/-- `handleToggleCompletion` from the list screen source: it PUTs
`{ isCompleted: !item.isCompleted }`, leaves `todos` untouched while
awaiting the response, and only on `response.ok` maps the new status over
the held list; a non-ok response or a thrown fetch reaches the catch
block, which alerts and leaves `todos` untouched. -/
def handleToggleCompletion (todos : List TodoItem) (item : TodoItem) : ToggleRun :=
  let newStatus := !item.isCompleted
  { requestBody := [("isCompleted", JValue.jbool newStatus)],
    listDuring := todos,
    listAfter := fun n =>
      match n with
      | NetOutcome.ok =>
        todos.map (fun t => if t.id == item.id then { t with isCompleted := newStatus } else t)
      | _ => todos }

/-- Local state of the list screen that `fetchTodos` touches. -/
structure HomeState where
  todos : List TodoItem
  loading : Bool
deriving Repr, DecidableEq

/-- One run of `fetchTodos`: on success (`some data`) the held list is
replaced and loading ends; on any failure (non-ok response or thrown
fetch, `none`) the catch block alerts (second component `true`), the held
list is untouched, and the `finally` block ends loading. -/
def fetchTodosStep (st : HomeState) (resp : Option (List TodoItem)) : HomeState × Bool :=
  match resp with
  | some data => ({ todos := data, loading := false }, false)
  | none => ({ st with loading := false }, true)

/-- A response to one list-refresh request: which request (in issue
order) it answers, and the data it carries. -/
structure ListResponse where
  reqIndex : Nat
  data : List TodoItem
deriving Repr, DecidableEq

/-- How the list screen consumes refresh responses: each arriving
response runs `setTodos(data)`, unconditionally overwriting the held
list — there is no tag check or stale-response discard in `fetchTodos`. -/
def applyResponses (init : List TodoItem) (arrivals : List ListResponse) : List TodoItem :=
  arrivals.foldl (fun _ r => r.data) init

/-- The most recently issued request among the arrived responses (the
one with the largest issue index), as the spec's stale-response-discard
rule would select it. -/
def latestIssued (arrivals : List ListResponse) : Option ListResponse :=
  arrivals.foldl
    (fun acc r =>
      match acc with
      | none => some r
      | some m => if m.reqIndex < r.reqIndex then some r else some m)
    none

/-- The debounce of the search bar, from the source's timer semantics:
each edit `(t, q)` schedules `onSearch(q)` at `t + 300`; the effect
cleanup on the next edit at `t'` clears that timer when `t' < t + 300`,
so the timer fires exactly when the next edit is at least 300 ms later
(or there is no next edit). Returns the fired `(time, query)` pairs. -/
def debounceFires : List (Nat × String) → List (Nat × String)
  | [] => []
  | (t, q) :: rest =>
    match rest with
    | [] => [(t + 300, q)]
    | (t', _) :: _ =>
      if t + 300 ≤ t' then (t + 300, q) :: debounceFires rest
      else debounceFires rest

/-- The debounce behaviour in the words of the spec: a fetch for a filter
value is issued only after 300 ms with no further filter edits — an edit
fires at `t + 300` exactly when the following edit is at least 300 ms
away, an intervening edit cancels the pending fetch, and the final edit
always fires. -/
def debounceSpec (edits : List (Nat × String)) : List (Nat × String) :=
  ((edits.zip edits.tail).filterMap
    (fun p => if p.1.1 + 300 ≤ p.2.1 then some (p.1.1 + 300, p.1.2) else none))
  ++ (match edits.getLast? with
      | none => []
      | some (t, q) => [(t + 300, q)])

/-- Sample items for concrete witnesses. -/
def sampleA : TodoItem :=
  { id := "a1", title := "Buy milk", description := none, dueDate := none,
    isImportant := false, isCompleted := false, createdAt := "2024-01-01T00:00:00Z" }

/-- A second sample item, differing from `sampleA`. -/
def sampleB : TodoItem :=
  { id := "b2", title := "Walk dog", description := some "around the block",
    dueDate := some "2024-02-01T00:00:00Z",
    isImportant := true, isCompleted := true, createdAt := "2024-01-02T00:00:00Z" }

/-! ## Helper lemmas -/

/-- Left-trimming is preserved by a subsequent right-trim: dropping a
trailing run from an already left-trimmed list leaves it left-trimmed. -/
theorem dropWhile_rdropWhile_dropWhile {α : Type} (p : α → Bool) (l : List α) :
    List.dropWhile p (List.rdropWhile p (List.dropWhile p l))
      = List.rdropWhile p (List.dropWhile p l) := by
  rw [List.dropWhile_eq_self_iff]
  intro hl
  have hpre : List.rdropWhile p (List.dropWhile p l) <+: List.dropWhile p l :=
    List.rdropWhile_prefix _ _
  have hlen : 0 < (List.dropWhile p l).length := lt_of_lt_of_le hl hpre.length_le
  have hnot := List.dropWhile_get_zero_not p l hlen
  simpa [List.get_eq_getElem, hpre.getElem] using hnot

/-- `jsTrim` is idempotent: a trimmed string has no surrounding whitespace
left to remove. -/
theorem jsTrim_idempotent (s : String) : jsTrim (jsTrim s) = jsTrim s := by
  unfold jsTrim
  simp [dropWhile_rdropWhile_dropWhile, List.rdropWhile_idempotent]

/-- Updating the item with a given id inside the store's list commutes
with `find?` on that id: the first match of the mapped list is the
updated first match of the original list (`applyUpdate` preserves `id`). -/
theorem find?_map_applyUpdate (l : List TodoItem) (id : String) (p : UpdatePayload) :
    (l.map (fun x => if x.id == id then applyUpdate p x else x)).find?
        (fun x => x.id == id)
      = (l.find? (fun x => x.id == id)).map (fun x => applyUpdate p x) := by
  induction l with
  | nil => rfl
  | cons a l ih =>
    simp only [List.map_cons]
    by_cases h : (a.id == id) = true
    · rw [if_pos h,
        List.find?_cons_of_pos (p := fun (x : TodoItem) => x.id == id) _
          (show ((applyUpdate p a).id == id) = true from h),
        List.find?_cons_of_pos (p := fun (x : TodoItem) => x.id == id) _ h]
      rfl
    · rw [if_neg h,
        List.find?_cons_of_neg (p := fun (x : TodoItem) => x.id == id) _ h,
        List.find?_cons_of_neg (p := fun (x : TodoItem) => x.id == id) _ h, ih]

/-! ## Claim theorems -/

/-- C1 (counterexample): the claim says the toggle is applied to the
locally held list optimistically, before server confirmation. In the
code the list while the request is in flight is the unchanged prior list,
not the toggled one: at the concrete input `[sampleA]`, toggling
`sampleA` leaves the in-flight list equal to `[sampleA]`, which differs
from the optimistically toggled list. -/
theorem toggle_not_optimistic_cex :
    (handleToggleCompletion [sampleA] sampleA).listDuring = [sampleA] ∧
    [sampleA] ≠ [{ sampleA with isCompleted := !sampleA.isCompleted }] := by
  exact ⟨rfl, by decide⟩

/-- C1 (amended): the toggle is applied to the locally held list only
after the server confirms success; while the request is in flight the
list is unchanged, and on a failed update call (HTTP error or transport
error) the list remains in its prior state, so no rollback is needed. -/
theorem toggle_applied_after_confirmation (todos : List TodoItem) (item : TodoItem) :
    (handleToggleCompletion todos item).listDuring = todos ∧
    (handleToggleCompletion todos item).listAfter NetOutcome.httpError = todos ∧
    (handleToggleCompletion todos item).listAfter NetOutcome.transportError = todos ∧
    (handleToggleCompletion todos item).listAfter NetOutcome.ok
      = todos.map (fun t =>
          if t.id == item.id then { t with isCompleted := !item.isCompleted } else t) :=
  ⟨rfl, rfl, rfl, rfl⟩

/-- C7 (counterexample): the claim says a stale response never becomes
the displayed list. In the code each arriving response overwrites the
held list unconditionally: when the response to the later-issued request
(index 1, data `[sampleA]`) arrives before the response to the
earlier-issued one (index 0, data `[sampleB]`), the displayed list ends
as `[sampleB]` — the stale result — although the most recently issued
request among the arrivals is request 1. -/
theorem stale_response_displayed_cex :
    applyResponses [] [⟨1, [sampleA]⟩, ⟨0, [sampleB]⟩] = [sampleB] ∧
    latestIssued [⟨1, [sampleA]⟩, ⟨0, [sampleB]⟩] = some ⟨1, [sampleA]⟩ ∧
    ([sampleB] : List TodoItem) ≠ [sampleA] := by
  exact ⟨rfl, rfl, by decide⟩

/-- C7 (amended): the displayed list is the data of the last response to
arrive — responses are applied in arrival order with no stale-response
discard, so the most recently issued request's result is kept only when
its response happens to arrive last. -/
theorem last_arrival_wins (init : List TodoItem) (arrivals : List ListResponse)
    (r : ListResponse) :
    applyResponses init (arrivals ++ [r]) = r.data := by
  simp [applyResponses, List.foldl_append]

/-- C10: the save body of the add/edit screen carries exactly the fields
title, description, dueDate and isImportant — never isCompleted, id or
createdAt — so under the partial-update semantics of the store, an edit
through that screen leaves the item's isCompleted, createdAt and id
unchanged. -/
theorem save_body_exact_fields (f : SaveForm) (t : TodoItem) :
    (saveBody f).map Prod.fst = ["title", "description", "dueDate", "isImportant"] ∧
    jLookup "isCompleted" (saveBody f) = none ∧
    jLookup "id" (saveBody f) = none ∧
    jLookup "createdAt" (saveBody f) = none ∧
    (applyUpdate (bodyToPayload (saveBody f)) t).isCompleted = t.isCompleted ∧
    (applyUpdate (bodyToPayload (saveBody f)) t).createdAt = t.createdAt ∧
    (applyUpdate (bodyToPayload (saveBody f)) t).id = t.id := by
  refine ⟨rfl, ?_, ?_, ?_, ?_, rfl, rfl⟩
  · simp [jLookup, saveBody, List.find?]
  · simp [jLookup, saveBody, List.find?]
  · simp [jLookup, saveBody, List.find?]
  · simp [applyUpdate, bodyToPayload, jLookup, saveBody, List.find?]

/-- Unfolding equation of `debounceFires` on two or more edits. -/
theorem debounceFires_cons_cons (t t' : Nat) (q q' : String)
    (rest : List (Nat × String)) :
    debounceFires ((t, q) :: (t', q') :: rest)
      = if t + 300 ≤ t' then (t + 300, q) :: debounceFires ((t', q') :: rest)
        else debounceFires ((t', q') :: rest) := rfl

/-- The spec-side debounce on two or more edits: the first edit
contributes a fetch exactly when the second edit is at least 300 ms
later, and the rest behaves as the debounce of the remaining edits. -/
theorem debounceSpec_cons_cons (t t' : Nat) (q q' : String)
    (rest : List (Nat × String)) :
    debounceSpec ((t, q) :: (t', q') :: rest)
      = (if t + 300 ≤ t' then [(t + 300, q)] else []) ++ debounceSpec ((t', q') :: rest) := by
  by_cases h : t + 300 ≤ t' <;>
    simp [debounceSpec, List.zip_cons_cons, List.filterMap_cons, h]

/-- C6: the source's timer-reset debounce refines the spec's description —
for any sequence of filter edits, a fetch for an edit's query fires at
that edit's time plus 300 ms exactly when no further edit occurs within
those 300 ms (an intervening edit cancels the pending fetch; the final
edit always fires after its quiet period). -/
theorem debounce_refines_spec (edits : List (Nat × String)) :
    debounceFires edits = debounceSpec edits := by
  induction edits with
  | nil => rfl
  | cons a rest ih =>
    obtain ⟨t, q⟩ := a
    cases rest with
    | nil => simp [debounceFires, debounceSpec]
    | cons b rest' =>
      obtain ⟨t', q'⟩ := b
      rw [debounceFires_cons_cons, debounceSpec_cons_cons, ih]
      by_cases h : t + 300 ≤ t' <;> simp [h]

/-- Inverting a successful Get: the store's list has a first match for
the id. -/
theorem getTodo_ok_find? (s : TodoStore) (id : String) (t : TodoItem)
    (h : getTodo s id = Except.ok t) :
    s.items.find? (fun x => x.id == id) = some t := by
  unfold getTodo at h
  split at h
  next u heq => injection h with h2; rw [← h2]; exact heq
  next heq => cases h

/-- C3: a save carries `title.trim()` in its payload, and Create stores
exactly that trimmed title, which trimming again leaves unchanged — so
stored titles have no surrounding whitespace. -/
theorem saved_title_trimmed (f : SaveForm) (s : TodoStore) (newId now : String)
    (h : jsTrim f.title ≠ "") :
    jLookup "title" (saveBody f) = some (JValue.jstr (jsTrim f.title)) ∧
    ∃ t, (createTodo s newId now (saveBody f)).1 = Except.ok t ∧
      t.title = jsTrim f.title ∧ jsTrim t.title = t.title := by
  have hl : jLookup "title" (saveBody f) = some (JValue.jstr (jsTrim f.title)) := by
    simp [jLookup, saveBody, List.find?]
  have hg : jsTrim (jsTrim f.title) = jsTrim f.title := jsTrim_idempotent _
  refine ⟨hl, ?_⟩
  simp only [createTodo, hl, hg, if_neg h]
  exact ⟨_, rfl, rfl, hg⟩

/-- C3 (witness): saving the title "  Buy milk  " stores "Buy milk". -/
theorem saved_title_trimmed_witness :
    jLookup "title" (saveBody ⟨"  Buy milk  ", "", none, false⟩)
      = some (JValue.jstr (jsTrim "  Buy milk  ")) ∧
    ∃ t, (createTodo ⟨[]⟩ "x1" "2024-01-01T00:00:00Z"
        (saveBody ⟨"  Buy milk  ", "", none, false⟩)).1 = Except.ok t ∧
      t.title = jsTrim "  Buy milk  " ∧ jsTrim t.title = t.title :=
  saved_title_trimmed ⟨"  Buy milk  ", "", none, false⟩ ⟨[]⟩ "x1"
    "2024-01-01T00:00:00Z" (by decide)

/-- C4 (counterexample): the claim says an empty-string description is
distinguishable from an absent one in payloads. The client coerces a
description that trims to empty to null (`description.trim() || null`):
with description "", the save body carries null for the description —
the same JSON value that represents an absent description — rather than
the distinct empty string. -/
theorem empty_description_sent_as_null_cex :
    jLookup "description" (saveBody ⟨"Buy milk", "", none, false⟩) = some JValue.jnull ∧
    JValue.jnull ≠ JValue.jstr "" := by
  exact ⟨by decide, by decide⟩

/-- C4 (amended): an absent `dueDate` is represented as null, and the
description is null in the payload exactly when it trims to empty — so
an empty-string (or whitespace-only) description is sent as null and is
not distinguishable from an absent one in save payloads. -/
theorem description_null_iff_blank (f : SaveForm) :
    (jLookup "description" (saveBody f) = some JValue.jnull ↔ jsTrim f.description = "") ∧
    (jLookup "dueDate" (saveBody f) = some JValue.jnull ↔ f.dueDate = none) := by
  constructor
  · by_cases h : jsTrim f.description = "" <;> simp [jLookup, saveBody, List.find?, h]
  · cases hd : f.dueDate <;> simp [jLookup, saveBody, List.find?, hd]

/-- C2: a title that trims to empty is rejected everywhere, leaving all
state unchanged — the client guard issues no request and returns the
store untouched; Create fails with ValidationError and returns the store
unchanged; Update with such a title supplied on an existing id fails
with ValidationError and returns the store unchanged. -/
theorem empty_title_rejected (title : String) (h : jsTrim title = "") :
    (∀ (editing : Option String) (f : SaveForm), f.title = title →
      ∀ (s : TodoStore) (newId now : String),
        performSave editing f s newId now = (none, s)) ∧
    (∀ (s : TodoStore) (newId now : String) (body : List (String × JValue)),
      jLookup "title" body = some (JValue.jstr title) →
      createTodo s newId now body = (Except.error StoreError.validationError, s)) ∧
    (∀ (s : TodoStore) (id : String) (p : UpdatePayload) (t : TodoItem),
      p.title = some title → getTodo s id = Except.ok t →
      updateTodo s id p = (Except.error StoreError.validationError, s)) := by
  refine ⟨?_, ?_, ?_⟩
  · intro editing f hf s newId now
    simp [performSave, handleSave, hf, h]
  · intro s newId now body hb
    simp [createTodo, hb, h]
  · intro s id p t hp hg
    have hfind := getTodo_ok_find? s id t hg
    simp [updateTodo, hfind, hp, h]

/-- C2 (witness): the whitespace title "   " is rejected by the client,
by Create, and by Update on an existing item, each leaving the store as
it was. -/
theorem empty_title_rejected_witness :
    performSave none ⟨"   ", "d", none, false⟩ ⟨[sampleA]⟩ "x1" "t0" = (none, ⟨[sampleA]⟩) ∧
    createTodo ⟨[]⟩ "x1" "t0" [("title", JValue.jstr "   ")]
      = (Except.error StoreError.validationError, ⟨[]⟩) ∧
    updateTodo ⟨[sampleA]⟩ "a1" ⟨some "   ", none, none, none, none⟩
      = (Except.error StoreError.validationError, ⟨[sampleA]⟩) := by
  have H := empty_title_rejected "   " (by decide)
  exact ⟨H.1 none ⟨"   ", "d", none, false⟩ rfl ⟨[sampleA]⟩ "x1" "t0",
    H.2.1 ⟨[]⟩ "x1" "t0" [("title", JValue.jstr "   ")] (by decide),
    H.2.2 ⟨[sampleA]⟩ "a1" ⟨some "   ", none, none, none, none⟩ sampleA rfl rfl⟩

/-- C5: flipping an item from the list screen sends a body whose decoded
payload provides only `isCompleted`; Update applies only provided
fields, so a Get after the Update shows the new `isCompleted` with every
other field of the item unchanged. -/
theorem toggle_updates_only_isCompleted (todos : List TodoItem) (item : TodoItem)
    (s : TodoStore) (t : TodoItem) (h : getTodo s item.id = Except.ok t) :
    (bodyToPayload (handleToggleCompletion todos item).requestBody).title = none ∧
    (bodyToPayload (handleToggleCompletion todos item).requestBody).description = none ∧
    (bodyToPayload (handleToggleCompletion todos item).requestBody).dueDate = none ∧
    (bodyToPayload (handleToggleCompletion todos item).requestBody).isImportant = none ∧
    (bodyToPayload (handleToggleCompletion todos item).requestBody).isCompleted
      = some (!item.isCompleted) ∧
    ∃ t' s',
      updateTodo s item.id (bodyToPayload (handleToggleCompletion todos item).requestBody)
        = (Except.ok t', s') ∧
      getTodo s' item.id = Except.ok t' ∧
      t'.isCompleted = !item.isCompleted ∧
      t'.id = t.id ∧ t'.title = t.title ∧ t'.description = t.description ∧
      t'.dueDate = t.dueDate ∧ t'.isImportant = t.isImportant ∧
      t'.createdAt = t.createdAt := by
  have hfind := getTodo_ok_find? s item.id t h
  have hp : bodyToPayload (handleToggleCompletion todos item).requestBody
      = ⟨none, none, none, none, some (!item.isCompleted)⟩ := rfl
  refine ⟨rfl, rfl, rfl, rfl, rfl, ?_⟩
  rw [hp]
  refine ⟨applyUpdate ⟨none, none, none, none, some (!item.isCompleted)⟩ t,
    ⟨s.items.map (fun x =>
      if x.id == item.id
      then applyUpdate ⟨none, none, none, none, some (!item.isCompleted)⟩ x else x)⟩,
    ?_, ?_, rfl, rfl, rfl, rfl, rfl, rfl, rfl⟩
  · simp [updateTodo, hfind]
  · unfold getTodo
    rw [find?_map_applyUpdate, hfind]
    rfl

/-- C5 (witness): toggling `sampleA` in a one-item store. -/
theorem toggle_updates_only_isCompleted_witness :
    (bodyToPayload (handleToggleCompletion [sampleA] sampleA).requestBody).title = none ∧
    (bodyToPayload (handleToggleCompletion [sampleA] sampleA).requestBody).description = none ∧
    (bodyToPayload (handleToggleCompletion [sampleA] sampleA).requestBody).dueDate = none ∧
    (bodyToPayload (handleToggleCompletion [sampleA] sampleA).requestBody).isImportant = none ∧
    (bodyToPayload (handleToggleCompletion [sampleA] sampleA).requestBody).isCompleted
      = some (!sampleA.isCompleted) ∧
    ∃ t' s',
      updateTodo ⟨[sampleA]⟩ sampleA.id
          (bodyToPayload (handleToggleCompletion [sampleA] sampleA).requestBody)
        = (Except.ok t', s') ∧
      getTodo s' sampleA.id = Except.ok t' ∧
      t'.isCompleted = !sampleA.isCompleted ∧
      t'.id = sampleA.id ∧ t'.title = sampleA.title ∧
      t'.description = sampleA.description ∧ t'.dueDate = sampleA.dueDate ∧
      t'.isImportant = sampleA.isImportant ∧ t'.createdAt = sampleA.createdAt :=
  toggle_updates_only_isCompleted [sampleA] sampleA ⟨[sampleA]⟩ sampleA rfl

/-- C8: a transport error on any client call is caught and reported, and
the locally held state returns to its prior stable form — the fetched
list is untouched and loading ends, a failed toggle leaves the held list
unchanged, and a failed save keeps the screen (no navigation) and resets
the saving flag. -/
theorem transport_error_preserves_state (st : HomeState) (todos : List TodoItem)
    (item : TodoItem) (isEditing : Bool) (f : SaveForm)
    (h : jsTrim f.title ≠ "") :
    fetchTodosStep st none = ({ todos := st.todos, loading := false }, true) ∧
    (handleToggleCompletion todos item).listAfter NetOutcome.transportError = todos ∧
    handleSaveRun isEditing f none
      = { requestSent := true,
          alert := ("Hata", "Kaydetme işlemi sırasında bir hata oluştu."),
          navigatedBack := false, isSavingAfter := false } := by
  refine ⟨rfl, rfl, ?_⟩
  simp [handleSaveRun, h]

/-- C8 (witness): concrete transport failures on each call site. -/
theorem transport_error_preserves_state_witness :
    fetchTodosStep ⟨[sampleA], true⟩ none = ({ todos := [sampleA], loading := false }, true) ∧
    (handleToggleCompletion [sampleA] sampleA).listAfter NetOutcome.transportError
      = [sampleA] ∧
    handleSaveRun true ⟨"Buy milk", "", none, false⟩ none
      = { requestSent := true,
          alert := ("Hata", "Kaydetme işlemi sırasında bir hata oluştu."),
          navigatedBack := false, isSavingAfter := false } :=
  transport_error_preserves_state ⟨[sampleA], true⟩ [sampleA] sampleA true
    ⟨"Buy milk", "", none, false⟩ (by decide)

/-- C9 (counterexample): the claim says a 400 and a 404 response map to
distinct user-visible messages. In `handleSave` every non-ok response
lands in the same catch block: at a concrete valid form, the alert for
status 400 equals the alert for status 404 — one generic failure
message. -/
theorem same_message_400_404_cex :
    (handleSaveRun true ⟨"Buy milk", "", none, false⟩ (some 400)).alert
      = (handleSaveRun true ⟨"Buy milk", "", none, false⟩ (some 404)).alert ∧
    (handleSaveRun true ⟨"Buy milk", "", none, false⟩ (some 400)).alert
      = ("Hata", "Kaydetme işlemi sırasında bir hata oluştu.") := by
  exact ⟨by decide, by decide⟩

/-- C9 (amended): the client shows one generic failure message for every
failed save response — 400 (ValidationError) and 404 (NotFound) alike —
so the two failure kinds are not distinguished in user-visible messages. -/
theorem save_failure_single_message (isEditing : Bool) (f : SaveForm) (status : Nat)
    (h : jsTrim f.title ≠ "") (hs : respOk status = false) :
    (handleSaveRun isEditing f (some status)).alert
      = ("Hata", "Kaydetme işlemi sırasında bir hata oluştu.") := by
  simp [handleSaveRun, h, hs]

/-- C9 (amended, witness): a 404 on a valid save shows the generic
failure message. -/
theorem save_failure_single_message_witness :
    (handleSaveRun true ⟨"Buy milk", "", none, false⟩ (some 404)).alert
      = ("Hata", "Kaydetme işlemi sırasında bir hata oluştu.") :=
  save_failure_single_message true ⟨"Buy milk", "", none, false⟩ 404
    (by decide) (by decide)
